import Mathlib

/-!
Verification of the application driver of the rocket game (src/src/main.rs).

The repository ships a single source file, `src/src/main.rs`, which contains
the application driver: the `ApplicationState` aggregate, its `reset` helper,
and the ggez event-handler callbacks `update`, `key_down_event`,
`key_up_event` and `focus_event`, plus `Args::parse`.  The component modules
(`controllers`, `game_state`, `geometry`, ...) are declared but their sources
are not in the repository snapshot, so the component operations
(`TimeController::update_seconds`, `TimeController::reset`,
`GameState::reset`, `CollisionsController::handle_collisions`,
`InputController::actions` / `key_press` / `key_release`) are embedded as
abstract operations collected in an `Ops` record, and the driver functions
are translated line by line from `main.rs` over those operations.  Each
driver function is instrumented to also return the ordered list of component
calls it performs, so that sequencing claims can be stated about the trace.
-/

namespace Rocket

/-- Opaque stand-in for the external ggez `Keycode` type (external library,
not part of this repository). -/
structure Keycode where
  code : Nat
deriving DecidableEq

/-- Opaque stand-in for the external ggez key-modifier type `Mod`. -/
structure KeyMod where
  bits : Nat
deriving DecidableEq

/-- Gameplay events.  `GameStart` is the variant used by the driver
(src/src/main.rs, line 78).  The other variants are modelled from the spec:
the `controllers` module defining `Event` is not under src; the spec lists
the variants as, e.g., GameStart, Collision, ScoreChange. -/
inductive Event where
  | GameStart
  | Collision
  | ScoreChange
deriving DecidableEq

/-- The game state as seen by the driver: `main.rs` reads only the `message`
field (`key_down_event`, line 116); everything else the `game_state` module
stores is abstracted as `rest` of an arbitrary type. -/
structure GameState (γ : Type) where
  message : Option String
  rest : γ

/-- The component operations the driver invokes.  The component modules are
not in the repository snapshot, so these are abstract:
`γ` is the hidden part of the game state, `τ` the time-controller state,
`ι` the input-controller state, `ρ` the rng state, `α` the action-set type
returned by `InputController::actions`, and `δ` the frame-duration type.
Rust's `&mut` parameters become state-passing results. -/
structure Ops (γ τ ι ρ α δ : Type) where
  timeUpdate : δ → α → τ → GameState γ → List Event → ρ →
    τ × GameState γ × List Event × ρ
  timeReset : τ → τ
  gameReset : GameState γ → ρ → GameState γ × ρ
  handleCollisions : GameState γ → τ → List Event →
    GameState γ × τ × List Event
  actions : ι → α
  keyPress : Keycode → KeyMod → ι → ι
  keyRelease : Keycode → KeyMod → ι → ι

/-- The application's state, from src/src/main.rs lines 36-52.  The
`resources` field (loaded fonts/images/sounds, used only by the excluded
view layer) is omitted: no driver function covered here touches it. -/
structure ApplicationState (γ τ ι ρ : Type) where
  has_focus : Bool
  game_state : GameState γ
  time_controller : τ
  input_controller : ι
  event_buffer : List Event
  rng : ρ

/-- A record of one component invocation performed by the driver, used to
instrument the driver functions with a call trace.  `inputReset` is listed
so that "the driver resets the input controller" is expressible; no driver
function in `main.rs` performs such a call. -/
inductive Call where
  | getActions
  | timeUpdate
  | handleCollisions
  | timeReset
  | gameReset
  | inputReset
  | pushGameStart
  | keyPress (k : Keycode)
  | keyRelease (k : Keycode)
deriving DecidableEq

variable {γ τ ι ρ α δ : Type}

/-- ApplicationState::reset, src/src/main.rs lines 71-79: reset the time
controller, then reset the game state (threading the rng), then push
`Event::GameStart` onto the event buffer.  Returns the new state and the
ordered trace of component calls. -/
def ApplicationState.reset (ops : Ops γ τ ι ρ α δ) (s : ApplicationState γ τ ι ρ) :
    ApplicationState γ τ ι ρ × List Call :=
  let tc := ops.timeReset s.time_controller
  let g := ops.gameReset s.game_state s.rng
  ({ s with
      time_controller := tc
      game_state := g.1
      rng := g.2
      event_buffer := s.event_buffer ++ [Event.GameStart] },
   [Call.timeReset, Call.gameReset, Call.pushGameStart])

/-- EventHandler::update, src/src/main.rs lines 86-105: if the window has no
focus, return `Ok(())` at once; otherwise take the action snapshot from the
input controller, advance the game state by the frame duration via
`TimeController::update_seconds`, then run
`CollisionsController::handle_collisions` on its results, and return
`Ok(())`.  The frame duration (read from the ggez context) is the `delta`
argument.  Returns the Rust `GameResult<()>`, the new state, and the trace. -/
def ApplicationState.update (ops : Ops γ τ ι ρ α δ) (delta : δ)
    (s : ApplicationState γ τ ι ρ) :
    Except String Unit × ApplicationState γ τ ι ρ × List Call :=
  if !s.has_focus then
    (Except.ok (), s, [])
  else
    let a := ops.actions s.input_controller
    let r1 := ops.timeUpdate delta a s.time_controller s.game_state
      s.event_buffer s.rng
    let r2 := ops.handleCollisions r1.2.1 r1.1 r1.2.2.1
    (Except.ok (),
     { s with
        game_state := r2.1
        time_controller := r2.2.1
        event_buffer := r2.2.2
        rng := r1.2.2.2 },
     [Call.getActions, Call.timeUpdate, Call.handleCollisions])

/-- EventHandler::key_down_event, src/src/main.rs lines 114-120: if the game
state's message is `Some`, call `self.reset()`; in every case forward the
key press to `InputController::key_press`. -/
def ApplicationState.key_down_event (ops : Ops γ τ ι ρ α δ)
    (k : Keycode) (m : KeyMod) (s : ApplicationState γ τ ι ρ) :
    ApplicationState γ τ ι ρ × List Call :=
  let p :=
    match s.game_state.message with
    | some _ => s.reset ops
    | none => (s, [])
  ({ p.1 with input_controller := ops.keyPress k m p.1.input_controller },
   p.2 ++ [Call.keyPress k])

/-- EventHandler::key_up_event, src/src/main.rs lines 121-123. -/
def ApplicationState.key_up_event (ops : Ops γ τ ι ρ α δ)
    (k : Keycode) (m : KeyMod) (s : ApplicationState γ τ ι ρ) :
    ApplicationState γ τ ι ρ × List Call :=
  ({ s with input_controller := ops.keyRelease k m s.input_controller },
   [Call.keyRelease k])

/-- EventHandler::focus_event, src/src/main.rs lines 126-128. -/
def ApplicationState.focus_event (b : Bool) (s : ApplicationState γ τ ι ρ) :
    ApplicationState γ τ ι ρ × List Call :=
  ({ s with has_focus := b }, [])

/-- One invocation of a ggez event-handler callback on the driver (the
entry points of `impl event::EventHandler for ApplicationState`; `draw`
belongs to the excluded view layer). -/
inductive DriverOp (δ : Type) where
  | update (d : δ)
  | keyDown (k : Keycode) (m : KeyMod)
  | keyUp (k : Keycode) (m : KeyMod)
  | focus (b : Bool)

/-- Dispatch one event-handler callback, returning the new state and the
trace of component calls it performed. -/
def driverStep (ops : Ops γ τ ι ρ α δ) :
    DriverOp δ → ApplicationState γ τ ι ρ → ApplicationState γ τ ι ρ × List Call
  | DriverOp.update d, s => ((s.update ops d).2.1, (s.update ops d).2.2)
  | DriverOp.keyDown k m, s => s.key_down_event ops k m
  | DriverOp.keyUp k m, s => s.key_up_event ops k m
  | DriverOp.focus b, s => s.focus_event b

/-! Geometry and the position-update pass, modelled from the spec.  The
`geometry`, `controllers` and `game_state` modules are not in the
repository snapshot, so the claim about entity geometry after updates is
settled against a model built from the spec's words. -/

/-- Modelled from the spec: bounds clamping from the geometry primitives
(the `geometry` module is not under src); "Clamp entity positions to arena
bounds"; "clamping is a hard constraint, never an error". -/
def clamp (lo hi x : ℚ) : ℚ :=
  max lo (min hi x)

/-- Modelled from the spec: an entity "has a position, a shape, and a kind";
positions and sizes are numeric pairs.  Exact arithmetic (ℚ) stands in for
the floating point of the source, so a NaN coordinate is unrepresentable in
the model.  `velX`/`velY` carry the per-second motion the time controller
applies ("movement/force updates ... scaled by delta"); `ttl` is the
remaining lifetime consumed by the time-based despawn/aging stage
(persistent entities simply carry a lifetime the run never exhausts —
which entities age is entity-model data, not algorithm). -/
structure Entity where
  posX : ℚ
  posY : ℚ
  sizeW : ℚ
  sizeH : ℚ
  velX : ℚ
  velY : ℚ
  ttl : ℚ
deriving DecidableEq

/-- Modelled from the spec: the source of randomness threaded through the
mutating calls, as an explicit injected generator ("the randomness source
... should be an explicit dependency (injected generator)"): an infinite
stream of rational draws and a cursor. -/
structure SpecRng where
  seq : Nat → ℚ
  idx : Nat

/-- Draw the next random rational and advance the generator. -/
def SpecRng.next (r : SpecRng) : ℚ × SpecRng :=
  (r.seq r.idx, { r with idx := r.idx + 1 })

/-- Modelled from the spec: the time controller "owns accumulated
simulation time and any per-entity timers (e.g., spawn cooldowns)"; the
spawn period itself is entity-model data carried as state. -/
structure SpecTimeController where
  elapsed : ℚ
  spawnCooldown : ℚ
  spawnPeriod : ℚ

/-- Modelled from the spec: the world model owns the arena size and the
collection of active entities (`game_state` module not under src). -/
structure SpecGameState where
  width : ℚ
  height : ℚ
  entities : List Entity
deriving DecidableEq

/-- Modelled from the spec: one movement update of a single entity by the
time controller — apply the motion scaled by `delta`, then clamp the
position to the arena bounds [0, width] x [0, height]; aging consumes
`delta` of the entity's remaining lifetime. -/
def specMoveEntity (w h delta : ℚ) (e : Entity) : Entity :=
  { e with
      posX := clamp 0 w (e.posX + e.velX * delta)
      posY := clamp 0 h (e.posY + e.velY * delta)
      ttl := e.ttl - delta }

/-- Modelled from the spec: the geometric parameters of a spawned obstacle
(its size, velocity, lifetime) are entity-model data, not algorithm; any
fixed non-negative size stands for them. -/
def spawnSize : ℚ := 10

/-- Modelled from the spec: the lifetime given to a spawned obstacle
(entity-model data). -/
def spawnTtl : ℚ := 5

/-- Modelled from the spec: the time-based spawn stage of
`TimeController::update_seconds` ("periodic obstacle generation"), using
the rng "for any randomized placement/timing" — when the spawn cooldown
has elapsed, generate one obstacle whose randomized position the
controller clamps to the arena bounds (all mutation routes through the
controllers, "which are responsible for clamping to arena bounds", so no
entity is out-of-arena by construction) and rearm the cooldown with the
period; otherwise spawn nothing. -/
def specSpawn (w h : ℚ) (tc : SpecTimeController) (r : SpecRng) :
    List Entity × SpecTimeController × SpecRng :=
  if tc.spawnCooldown ≤ 0 then
    let d1 := r.next
    let d2 := d1.2.next
    ([{ posX := clamp 0 w d1.1
        posY := clamp 0 h d2.1
        sizeW := spawnSize
        sizeH := spawnSize
        velX := 0
        velY := 0
        ttl := spawnTtl }],
     { tc with spawnCooldown := tc.spawnCooldown + tc.spawnPeriod },
     d2.2)
  else
    ([], tc, r)

/-- Modelled from the spec: `TimeController::update_seconds`, in the
spec's order of responsibilities — (1) apply movement scaled by `delta`,
(2) clamp entity positions to the arena bounds carried in the game state,
(3) advance the time-based spawn/despawn logic (age entities out, spawn a
periodic obstacle at an rng-randomized placement), threading the rng.
Responsibility (4), appending events to the event buffer, touches no
entity geometry and is carried by the driver-level Event model above; it
is not repeated here. -/
def specTimeUpdate (delta : ℚ) (gs : SpecGameState) (tc : SpecTimeController)
    (r : SpecRng) : SpecGameState × SpecTimeController × SpecRng :=
  let moved := gs.entities.map (specMoveEntity gs.width gs.height delta)
  let alive := moved.filter (fun e => decide (0 < e.ttl))
  let tc1 := { tc with
                elapsed := tc.elapsed + delta
                spawnCooldown := tc.spawnCooldown - delta }
  let sp := specSpawn gs.width gs.height tc1 r
  ({ gs with entities := alive ++ sp.1 }, sp.2.1, sp.2.2)

/-- Modelled from the spec: `CollisionsController::handle_collisions`
resolves overlaps by removing entities; geometrically it only ever removes
entities from the collection (the removal choice, which is entity-kind
dependent, is abstracted as a predicate `keep`). -/
def specCollisions (keep : Entity → Bool) (gs : SpecGameState) : SpecGameState :=
  { gs with entities := gs.entities.filter keep }

/-- One full update cycle, modelled from the spec: time-stepped state
update (movement, clamp, spawn/despawn with rng) then collision pass. -/
def specStep (delta : ℚ) (keep : Entity → Bool) (gs : SpecGameState)
    (tc : SpecTimeController) (r : SpecRng) :
    SpecGameState × SpecTimeController × SpecRng :=
  let u := specTimeUpdate delta gs tc r
  (specCollisions keep u.1, u.2.1, u.2.2)

/-- A sequence of update cycles, each given its frame delta and its
collision-resolution outcome, threading the time controller and the rng. -/
def specRun (steps : List (ℚ × (Entity → Bool))) (gs : SpecGameState)
    (tc : SpecTimeController) (r : SpecRng) :
    SpecGameState × SpecTimeController × SpecRng :=
  steps.foldl (fun st p => specStep p.1 p.2 st.1 st.2.1 st.2.2) (gs, tc, r)

/-- Every entity of the game state has valid geometry (non-negative size;
NaN is unrepresentable in the exact-arithmetic model) and a position inside
the arena bounds [0, width] x [0, height]. -/
def SpecGameState.inBounds (gs : SpecGameState) : Prop :=
  ∀ e ∈ gs.entities,
    (0 ≤ e.posX ∧ e.posX ≤ gs.width ∧ 0 ≤ e.posY ∧ e.posY ≤ gs.height) ∧
      0 ≤ e.sizeW ∧ 0 ≤ e.sizeH

/-- Every entity of the game state has non-negative size. -/
def SpecGameState.sizesOk (gs : SpecGameState) : Prop :=
  ∀ e ∈ gs.entities, 0 ≤ e.sizeW ∧ 0 ≤ e.sizeH

/-! Command-line argument handling, from src/src/main.rs lines 131-162. -/

/-- Size, as used by `Args::parse`; the numeric type of the source is `f32`,
modelled with exact arithmetic. -/
structure Size where
  width : ℚ
  height : ℚ
deriving DecidableEq

/-- Size::new from the `geometry` module (not under src): plain
construction, as used at src/src/main.rs line 148. -/
def Size.new (w h : ℚ) : Size :=
  { width := w, height := h }

/-- DEFAULT_WIDTH, src/src/main.rs line 32. -/
def DEFAULT_WIDTH : ℚ := 1024

/-- DEFAULT_HEIGHT, src/src/main.rs line 33. -/
def DEFAULT_HEIGHT : ℚ := 600

/-- The usage message printed by `Args::parse` before exiting,
src/src/main.rs line 154. -/
def usageMsg : String :=
  "Usage:\n./rocket\n./rocket <width> <height>"

/-- Outcome of `Args::parse`: a normal return, a panic (from `.expect`)
carrying the panic message, or process termination via
`std::process::exit` carrying the exit code and the printed text. -/
inductive ParseOutcome where
  | ok (game_size : Size)
  | panicked (msg : String)
  | exited (code : Nat) (printed : String)
deriving DecidableEq

/-- Args::parse, src/src/main.rs lines 137-162: skip the first argument
(the binary path); with no remaining arguments use the default size; with
exactly two, parse them as numbers — `width.parse()` is evaluated first,
so a bad width panics before the height is examined; with any other count,
print the usage message and exit with code 1.  Rust's `str::parse::<f32>`
lives in the standard library, outside this repository, so it is abstracted
as the `num` argument (`none` models a parse failure). -/
def Args.parse (num : String → Option ℚ) (args : List String) : ParseOutcome :=
  match args.drop 1 with
  | [] => ParseOutcome.ok { width := DEFAULT_WIDTH, height := DEFAULT_HEIGHT }
  | [width, height] =>
    match num width with
    | none => ParseOutcome.panicked "width must be a decimal number"
    | some w =>
      match num height with
      | none => ParseOutcome.panicked "height must be a decimal number"
      | some h => ParseOutcome.ok (Size.new w h)
  | _ => ParseOutcome.exited 1 usageMsg

/-! Concrete instantiations used to evaluate the driver on explicit inputs. -/

/-- A concrete instantiation of the abstract component operations (all
component state types are Nat), used to evaluate the driver on explicit
inputs.  Its game-state reset clears the message, as the spec requires of
GameState::reset. -/
def ops0 : Ops Nat Nat Nat Nat Nat Nat where
  timeUpdate := fun d a tc gs eb r =>
    (tc + d, { gs with rest := gs.rest + a }, eb ++ [Event.Collision], r + 1)
  timeReset := fun _ => 0
  gameReset := fun gs r => ({ message := none, rest := gs.rest + 1 }, r + 1)
  handleCollisions := fun gs tc eb => (gs, tc + 1, eb ++ [Event.ScoreChange])
  actions := fun i => i
  keyPress := fun k _ i => i + k.code
  keyRelease := fun k _ i => i + 2 * k.code

/-- A concrete application state: focused, with a displayed message. -/
def sFoc : ApplicationState Nat Nat Nat Nat where
  has_focus := true
  game_state := { message := some "Game Over", rest := 0 }
  time_controller := 3
  input_controller := 5
  event_buffer := [Event.Collision]
  rng := 7

/-- The same state without window focus. -/
def sUnf : ApplicationState Nat Nat Nat Nat :=
  { sFoc with has_focus := false }

/-- The same state with an empty event buffer. -/
def sEmptyBuf : ApplicationState Nat Nat Nat Nat :=
  { sFoc with event_buffer := [] }

variable {γ τ ι ρ α δ : Type}

/-- C1: within one focused frame, `ApplicationState::update` performs the
pipeline stages strictly in sequence — action snapshot via
`input_controller.actions()`, then `time_controller.update_seconds` on the
elapsed delta, then `CollisionsController::handle_collisions` — and the
collision pass receives exactly the state produced by the time update
(the post-movement state), never a partially-updated intermediate state. -/
theorem update_pipeline_order (ops : Ops γ τ ι ρ α δ) (d : δ)
    (s : ApplicationState γ τ ι ρ) (h : s.has_focus = true) :
    s.update ops d =
      (let a := ops.actions s.input_controller
       let r1 := ops.timeUpdate d a s.time_controller s.game_state
         s.event_buffer s.rng
       let r2 := ops.handleCollisions r1.2.1 r1.1 r1.2.2.1
       (Except.ok (),
        { s with
            game_state := r2.1
            time_controller := r2.2.1
            event_buffer := r2.2.2
            rng := r1.2.2.2 },
        [Call.getActions, Call.timeUpdate, Call.handleCollisions])) := by
  simp [ApplicationState.update, h]

/-- Witness for update_pipeline_order at a concrete focused state. -/
theorem update_pipeline_order_holds :
    sFoc.has_focus = true ∧
    sFoc.update ops0 2 =
      (Except.ok (),
       { sFoc with
          game_state := { message := some "Game Over", rest := 5 }
          time_controller := 6
          event_buffer := [Event.Collision, Event.Collision, Event.ScoreChange]
          rng := 8 },
       [Call.getActions, Call.timeUpdate, Call.handleCollisions]) :=
  ⟨rfl, by simpa [ops0, sFoc] using update_pipeline_order ops0 2 sFoc rfl⟩

/-- C2: when the window has no focus, `ApplicationState::update` returns
`Ok(())` at once and the whole application state — game state, time
controller, input controller, event buffer and rng — is unchanged, with no
component call performed; when the window has focus the full update path
(action snapshot, time update, collision pass) runs. -/
theorem update_focus_gate (ops : Ops γ τ ι ρ α δ) (d : δ)
    (s : ApplicationState γ τ ι ρ) :
    (s.has_focus = false → s.update ops d = (Except.ok (), s, [])) ∧
    (s.has_focus = true →
      (s.update ops d).2.2 =
        [Call.getActions, Call.timeUpdate, Call.handleCollisions]) := by
  constructor <;> intro h <;> simp [ApplicationState.update, h]

/-- Witness for update_focus_gate at a concrete unfocused state. -/
theorem update_focus_gate_holds :
    sUnf.has_focus = false ∧
    sUnf.update ops0 2 = (Except.ok (), sUnf, []) :=
  ⟨rfl, (update_focus_gate ops0 2 sUnf).1 rfl⟩

/-- C3: `ApplicationState::reset` always invokes the time-controller reset
and the game-state reset together, time controller first (its trace is
exactly timeReset, gameReset, pushGameStart), and across every driver entry
point a time-controller reset occurs exactly when a game-state reset does,
the two adjacent with the time-controller reset first. -/
theorem resets_coupled (ops : Ops γ τ ι ρ α δ) (op : DriverOp δ)
    (s : ApplicationState γ τ ι ρ) :
    (s.reset ops).2 = [Call.timeReset, Call.gameReset, Call.pushGameStart] ∧
    (Call.timeReset ∈ (driverStep ops op s).2 ↔
      Call.gameReset ∈ (driverStep ops op s).2) ∧
    (Call.timeReset ∈ (driverStep ops op s).2 →
      ∃ pre post,
        (driverStep ops op s).2 =
          pre ++ [Call.timeReset, Call.gameReset] ++ post) := by
  refine ⟨rfl, ?_⟩
  cases op with
  | update d =>
    cases hf : s.has_focus <;>
      simp [driverStep, ApplicationState.update, hf]
  | keyDown k m =>
    cases hm : s.game_state.message with
    | none => simp [driverStep, ApplicationState.key_down_event, hm]
    | some msg =>
      constructor
      · simp [driverStep, ApplicationState.key_down_event, hm,
          ApplicationState.reset]
      · intro _
        exact ⟨[], [Call.pushGameStart, Call.keyPress k],
          by simp [driverStep, ApplicationState.key_down_event, hm,
            ApplicationState.reset]⟩
  | keyUp k m => simp [driverStep, ApplicationState.key_up_event]
  | focus b => simp [driverStep, ApplicationState.focus_event]

/-- Witness for resets_coupled at a concrete key-down with a message set. -/
theorem resets_coupled_holds :
    Call.timeReset ∈
      (driverStep ops0 (DriverOp.keyDown (Keycode.mk 9) (KeyMod.mk 0)) sFoc).2 ∧
    ∃ pre post,
      (driverStep ops0 (DriverOp.keyDown (Keycode.mk 9) (KeyMod.mk 0)) sFoc).2 =
        pre ++ [Call.timeReset, Call.gameReset] ++ post :=
  ⟨by decide,
   (resets_coupled ops0 (DriverOp.keyDown (Keycode.mk 9) (KeyMod.mk 0)) sFoc).2.2
     (by decide)⟩

/-- C4 counterexample: at a concrete state with a displayed message, the
key-down trace contains the time-controller reset, the game-state reset and
the GameStart push, but no input-controller reset — the claim that the
driver "calls reset() on both controllers" is false: only one controller
(the time controller) is reset; the input controller is never reset by any
code in main.rs. -/
theorem key_down_no_input_reset :
    sFoc.game_state.message = some "Game Over" ∧
    (sFoc.key_down_event ops0 (Keycode.mk 9) (KeyMod.mk 0)).2 =
      [Call.timeReset, Call.gameReset, Call.pushGameStart,
       Call.keyPress (Keycode.mk 9)] ∧
    Call.inputReset ∉ (sFoc.key_down_event ops0 (Keycode.mk 9) (KeyMod.mk 0)).2 :=
  ⟨rfl, rfl, by decide⟩

/-- C4 amended: for every key-down event, if the game state's message is
`Some`, the driver resets the time controller and the game state (the input
controller is not reset), pushes a GameStart event, and — since
GameState::reset clears the message (hypothesis `hclear`, per the spec) —
returns to Running (message = none); if the message is `None`, the key-down
performs no reset and appends no GameStart: it only forwards the key press
to the input controller. -/
theorem key_down_restart (ops : Ops γ τ ι ρ α δ)
    (hclear : ∀ gs r, ((ops.gameReset gs r).1).message = none)
    (k : Keycode) (m : KeyMod) (s : ApplicationState γ τ ι ρ) :
    ((∃ msg, s.game_state.message = some msg) →
      (s.key_down_event ops k m).2 =
        [Call.timeReset, Call.gameReset, Call.pushGameStart, Call.keyPress k] ∧
      (s.key_down_event ops k m).1.time_controller =
        ops.timeReset s.time_controller ∧
      (s.key_down_event ops k m).1.event_buffer =
        s.event_buffer ++ [Event.GameStart] ∧
      (s.key_down_event ops k m).1.game_state.message = none) ∧
    (s.game_state.message = none →
      (s.key_down_event ops k m).2 = [Call.keyPress k] ∧
      (s.key_down_event ops k m).1 =
        { s with input_controller := ops.keyPress k m s.input_controller }) := by
  constructor
  · rintro ⟨msg, hm⟩
    simp [ApplicationState.key_down_event, hm, ApplicationState.reset, hclear]
  · intro hm
    simp [ApplicationState.key_down_event, hm]

/-- Witness for key_down_restart at a concrete state with a message set. -/
theorem key_down_restart_holds :
    (∀ gs r, ((ops0.gameReset gs r).1).message = none) ∧
    (∃ msg, sFoc.game_state.message = some msg) ∧
    ((sFoc.key_down_event ops0 (Keycode.mk 9) (KeyMod.mk 0)).2 =
      [Call.timeReset, Call.gameReset, Call.pushGameStart,
       Call.keyPress (Keycode.mk 9)] ∧
     (sFoc.key_down_event ops0 (Keycode.mk 9) (KeyMod.mk 0)).1.time_controller =
       ops0.timeReset sFoc.time_controller ∧
     (sFoc.key_down_event ops0 (Keycode.mk 9) (KeyMod.mk 0)).1.event_buffer =
       sFoc.event_buffer ++ [Event.GameStart] ∧
     (sFoc.key_down_event ops0 (Keycode.mk 9)
       (KeyMod.mk 0)).1.game_state.message = none) :=
  ⟨fun _ _ => rfl, ⟨"Game Over", rfl⟩,
   (key_down_restart ops0 (fun _ _ => rfl) (Keycode.mk 9) (KeyMod.mk 0) sFoc).1
     ⟨"Game Over", rfl⟩⟩

/-- C5 counterexample: at a concrete state whose event buffer is empty,
`ApplicationState::reset` itself leaves the buffer holding the GameStart
event — before any update has run — refuting the claim that the GameStart
event is appended by the next update and not by the reset itself
(main.rs line 78 pushes it inside `reset`). -/
theorem reset_pushes_gamestart_itself :
    sEmptyBuf.event_buffer = [] ∧
    (sEmptyBuf.reset ops0).1.event_buffer = [Event.GameStart] ∧
    Event.GameStart ∈ (sEmptyBuf.reset ops0).1.event_buffer :=
  ⟨rfl, rfl, by decide⟩

/-- C5 amended: after a reset from a buffer holding no GameStart, the event
buffer contains exactly one GameStart event, and that event is appended at
the end of the buffer by the reset itself (not by the next update). -/
theorem reset_gamestart_count (ops : Ops γ τ ι ρ α δ)
    (s : ApplicationState γ τ ι ρ)
    (h : Event.GameStart ∉ s.event_buffer) :
    (s.reset ops).1.event_buffer.count Event.GameStart = 1 ∧
    (s.reset ops).1.event_buffer = s.event_buffer ++ [Event.GameStart] := by
  refine ⟨?_, rfl⟩
  have hz : s.event_buffer.count Event.GameStart = 0 :=
    List.count_eq_zero.mpr h
  simp [ApplicationState.reset, List.count_append, hz]

/-- Witness for reset_gamestart_count at a concrete empty-buffer state. -/
theorem reset_gamestart_count_holds :
    Event.GameStart ∉ sEmptyBuf.event_buffer ∧
    ((sEmptyBuf.reset ops0).1.event_buffer.count Event.GameStart = 1 ∧
     (sEmptyBuf.reset ops0).1.event_buffer =
       sEmptyBuf.event_buffer ++ [Event.GameStart]) :=
  ⟨by decide, reset_gamestart_count ops0 sEmptyBuf (by decide)⟩

/-- C7: the per-frame core operations are infallible toward their caller:
`ApplicationState::update` returns `Ok(())` on every path — the unfocused
early return and the full update path alike — for every component
implementation, frame delta and application state.  The key handlers'
embedded types return only a new state and a trace, mirroring the Rust
signatures that return `()`: they have no error component at all. -/
theorem update_never_errs (ops : Ops γ τ ι ρ α δ) (d : δ)
    (s : ApplicationState γ τ ι ρ) :
    (s.update ops d).1 = Except.ok () := by
  unfold ApplicationState.update
  split <;> rfl

/-- C8: every key-down event forwards the key to
`InputController::key_press` unconditionally — the final input-controller
state is `key_press` applied to the pre-call input state in both branches,
and the key-press call is the last component call of the trace — so the
keystroke that dismisses a displayed message both triggers the reset and
becomes an active action for subsequent updates. -/
theorem key_press_forwarded (ops : Ops γ τ ι ρ α δ) (k : Keycode) (m : KeyMod)
    (s : ApplicationState γ τ ι ρ) :
    (s.key_down_event ops k m).1.input_controller =
      ops.keyPress k m s.input_controller ∧
    ((s.key_down_event ops k m).2).getLast? = some (Call.keyPress k) := by
  cases hm : s.game_state.message <;>
    simp [ApplicationState.key_down_event, hm, ApplicationState.reset]

/-- C9: `ApplicationState::reset` neither clears nor reorders the event
buffer: the new buffer is exactly the old buffer with a single GameStart
event appended at the end, so all previously buffered events are preserved
and precede the GameStart event. -/
theorem reset_preserves_buffer (ops : Ops γ τ ι ρ α δ)
    (s : ApplicationState γ τ ι ρ) :
    (s.reset ops).1.event_buffer = s.event_buffer ++ [Event.GameStart] := rfl

/-- Clamping to [0, hi] never produces a negative value. -/
theorem clamp_nonneg (hi x : ℚ) : 0 ≤ clamp 0 hi x :=
  le_max_left 0 _

/-- Clamping to [0, hi] never exceeds hi when hi is non-negative. -/
theorem clamp_le_hi (hi x : ℚ) (h : 0 ≤ hi) : clamp 0 hi x ≤ hi :=
  max_le h (min_le_left _ _)

/-- Any entity produced by the spawn stage is inside the arena bounds (its
randomized placement is clamped by the controller) and has valid,
non-negative size. -/
theorem specSpawn_mem (w h : ℚ) (tc : SpecTimeController) (r : SpecRng)
    (hw : 0 ≤ w) (hh : 0 ≤ h) (e : Entity)
    (he : e ∈ (specSpawn w h tc r).1) :
    (0 ≤ e.posX ∧ e.posX ≤ w ∧ 0 ≤ e.posY ∧ e.posY ≤ h) ∧
      0 ≤ e.sizeW ∧ 0 ≤ e.sizeH := by
  unfold specSpawn at he
  by_cases hc : tc.spawnCooldown ≤ 0
  · rw [if_pos hc] at he
    simp only [List.mem_singleton] at he
    subst he
    exact ⟨⟨clamp_nonneg _ _, clamp_le_hi _ _ hw,
      clamp_nonneg _ _, clamp_le_hi _ _ hh⟩,
      by norm_num [spawnSize], by norm_num [spawnSize]⟩
  · rw [if_neg hc] at he
    simp at he

/-- One spec-modelled update cycle puts every entity — surviving movers and
freshly spawned obstacles alike — inside the arena bounds and preserves
size validity. -/
theorem specStep_inBounds (d : ℚ) (keep : Entity → Bool) (gs : SpecGameState)
    (tc : SpecTimeController) (r : SpecRng)
    (hw : 0 ≤ gs.width) (hh : 0 ≤ gs.height) (hsz : gs.sizesOk) :
    (specStep d keep gs tc r).1.inBounds := by
  intro e he
  simp only [specStep, specCollisions, specTimeUpdate, List.mem_filter,
    List.mem_append, List.mem_map] at he
  obtain ⟨he, -⟩ := he
  rcases he with ⟨⟨e0, he0, rfl⟩, -⟩ | hsp
  · exact ⟨⟨clamp_nonneg _ _, clamp_le_hi _ _ hw,
      clamp_nonneg _ _, clamp_le_hi _ _ hh⟩, hsz e0 he0⟩
  · exact specSpawn_mem gs.width gs.height _ r hw hh e hsp

/-- One spec-modelled update cycle keeps the arena size unchanged. -/
theorem specStep_dims (d : ℚ) (keep : Entity → Bool) (gs : SpecGameState)
    (tc : SpecTimeController) (r : SpecRng) :
    (specStep d keep gs tc r).1.width = gs.width ∧
      (specStep d keep gs tc r).1.height = gs.height :=
  ⟨rfl, rfl⟩

/-- One spec-modelled update cycle preserves size validity. -/
theorem specStep_sizesOk (d : ℚ) (keep : Entity → Bool) (gs : SpecGameState)
    (tc : SpecTimeController) (r : SpecRng)
    (hw : 0 ≤ gs.width) (hh : 0 ≤ gs.height) (hsz : gs.sizesOk) :
    (specStep d keep gs tc r).1.sizesOk := by
  intro e he
  simp only [specStep, specCollisions, specTimeUpdate, List.mem_filter,
    List.mem_append, List.mem_map] at he
  obtain ⟨he, -⟩ := he
  rcases he with ⟨⟨e0, he0, rfl⟩, -⟩ | hsp
  · exact hsz e0 he0
  · exact (specSpawn_mem gs.width gs.height _ r hw hh e hsp).2

/-- C6: for every starting game state with a well-formed arena and valid
entity sizes, every time-controller state and every injected rng, after any
non-empty sequence of update cycles — movement, clamping, rng-driven
spawn/despawn, collision pass — no entity has invalid geometry (negative
size; NaN is unrepresentable in the exact-arithmetic model) and every
entity's position, including that of every freshly spawned entity, lies
inside the arena bounds [0, width] x [0, height]: positions are clamped
to the bounds, never rejected. -/
theorem specRun_inBounds (steps : List (ℚ × (Entity → Bool)))
    (gs : SpecGameState) (tc : SpecTimeController) (r : SpecRng)
    (hw : 0 ≤ gs.width) (hh : 0 ≤ gs.height)
    (hsz : gs.sizesOk) (hne : steps ≠ []) :
    (specRun steps gs tc r).1.inBounds := by
  induction steps generalizing gs tc r with
  | nil => exact absurd rfl hne
  | cons p rest ih =>
    have hrun : specRun (p :: rest) gs tc r =
        specRun rest (specStep p.1 p.2 gs tc r).1
          (specStep p.1 p.2 gs tc r).2.1 (specStep p.1 p.2 gs tc r).2.2 := rfl
    cases rest with
    | nil =>
      rw [hrun]
      exact specStep_inBounds p.1 p.2 gs tc r hw hh hsz
    | cons q t =>
      rw [hrun]
      exact ih (specStep p.1 p.2 gs tc r).1 (specStep p.1 p.2 gs tc r).2.1
        (specStep p.1 p.2 gs tc r).2.2
        ((specStep_dims p.1 p.2 gs tc r).1.symm ▸ hw)
        ((specStep_dims p.1 p.2 gs tc r).2.symm ▸ hh)
        (specStep_sizesOk p.1 p.2 gs tc r hw hh hsz)
        (List.cons_ne_nil q t)

/-- A concrete spec-modelled game state: the 1024 x 600 arena of the
defaults, one entity at the center moving fast enough to leave the arena
without clamping. -/
def gs0 : SpecGameState where
  width := 1024
  height := 600
  entities :=
    [{ posX := 512, posY := 300, sizeW := 10, sizeH := 10,
       velX := 2000, velY := -1000, ttl := 3 }]

/-- A concrete time-controller state whose spawn cooldown elapses within
the first one-second update, so the witness run spawns an obstacle. -/
def tc0 : SpecTimeController where
  elapsed := 0
  spawnCooldown := 1/2
  spawnPeriod := 2

/-- A concrete injected generator whose first two draws (-100 and 2900)
both fall outside the arena, so the spawned placement is visibly clamped. -/
def rng0 : SpecRng where
  seq := fun n => (n : ℚ) * 3000 - 100
  idx := 0

/-- Witness for specRun_inBounds at a concrete one-cycle run; the run's
spawn cooldown elapses, so the final state holds two entities — the mover
and the spawned obstacle — both inside the arena. -/
theorem specRun_inBounds_holds :
    (specRun [((1 : ℚ), fun _ => true)] gs0 tc0 rng0).1.entities.length = 2 ∧
    (0 ≤ gs0.width ∧ 0 ≤ gs0.height ∧ gs0.sizesOk ∧
      ([((1 : ℚ), fun _ => true)] : List (ℚ × (Entity → Bool))) ≠ []) ∧
    (specRun [((1 : ℚ), fun _ => true)] gs0 tc0 rng0).1.inBounds :=
  ⟨by
    norm_num [specRun, specStep, specTimeUpdate, specSpawn, specCollisions,
      specMoveEntity, gs0, tc0, rng0, SpecRng.next, List.filter],
   ⟨by norm_num [gs0], by norm_num [gs0],
    by intro e he; simp [gs0] at he; subst he; constructor <;> norm_num,
    by simp⟩,
   specRun_inBounds [((1 : ℚ), fun _ => true)] gs0 tc0 rng0
     (by norm_num [gs0]) (by norm_num [gs0])
     (by intro e he; simp [gs0] at he; subst he; constructor <;> norm_num)
     (by simp)⟩

/-- C10: `Args::parse` skips the first argument (the binary path); with no
remaining arguments it returns the default game size 1024 x 600; with
exactly two remaining arguments it parses them as numbers, width first,
panicking with the corresponding message if either fails to parse; with any
other count of remaining arguments it prints the usage message and
terminates the process with exit code 1. -/
theorem args_parse_cases (num : String → Option ℚ) (bin : String)
    (rest : List String) :
    (rest = [] →
      Args.parse num (bin :: rest) =
        ParseOutcome.ok { width := 1024, height := 600 }) ∧
    (∀ w h, rest = [w, h] →
      Args.parse num (bin :: rest) =
        match num w with
        | none => ParseOutcome.panicked "width must be a decimal number"
        | some a =>
          match num h with
          | none => ParseOutcome.panicked "height must be a decimal number"
          | some b => ParseOutcome.ok (Size.new a b)) ∧
    (rest.length ≠ 0 → rest.length ≠ 2 →
      Args.parse num (bin :: rest) = ParseOutcome.exited 1 usageMsg) := by
  refine ⟨?_, ?_, ?_⟩
  · rintro rfl
    rfl
  · rintro w h rfl
    rfl
  · intro h0 h2
    match rest with
    | [] => exact absurd rfl h0
    | [a] => rfl
    | [a, b] => exact absurd rfl h2
    | a :: b :: c :: t => rfl

/-- Witness for args_parse_cases with no arguments beyond the binary path. -/
theorem args_parse_cases_holds :
    (([] : List String) = []) ∧
    Args.parse (fun _ => none) ["rocket"] =
      ParseOutcome.ok { width := 1024, height := 600 } :=
  ⟨rfl, (args_parse_cases (fun _ => none) "rocket" []).1 rfl⟩

end Rocket
